import Mathlib

/-!
Verification of the watchlist slice of the stock-market-app repository:
the server actions in `src/lib/actions/watchlist.actions.ts`
(`getUserWatchlist`, `addToWatchlist`, `removeFromWatchlist`,
`getWatchlistSymbolsByEmail`) and the presentation adapter
`src/components/WatchlistTable.tsx` (`handleRemove`).

Numbers coming back from the market-data API are modelled as rationals;
JavaScript truthiness on a possibly-absent number (`undefined` or a number,
where `0` is falsy) is modelled on `Option ℚ`; `x.toFixed(2)` is modelled as
decimal rounding to two places.  Fallible external calls are modelled with
`Except`.
-/

namespace StockApp

/-- A persisted watchlist document: `{ userId, symbol, company, addedAt }`
(`addedAt` as an integer timestamp). -/
structure WatchlistItem where
  userId : String
  symbol : String
  company : String
  addedAt : Int
  deriving Repr, DecidableEq

/-- Response of the `/quote` endpoint as the code reads it:
`quoteData?.c` (current price) and `quoteData?.dp` (percent change). -/
structure QuoteData where
  c : Option ℚ
  dp : Option ℚ
  deriving Repr, DecidableEq

/-- Response of the `/stock/profile2` endpoint as the code reads it:
`profileData?.marketCapitalization`. -/
structure ProfileData where
  marketCapitalization : Option ℚ
  deriving Repr, DecidableEq

/-- The `metric` object of the `/stock/metric` endpoint as the code reads it. -/
structure MetricData where
  peExclExtraTTM : Option ℚ
  peNormalizedAnnual : Option ℚ
  deriving Repr, DecidableEq

/-- Response of the `/stock/metric` endpoint: `financialsData?.metric`. -/
structure FinancialsData where
  metric : Option MetricData
  deriving Repr, DecidableEq

/-- The record returned per stock by `getUserWatchlist`
(`StockWithData`): the stored fields plus optional live data. -/
structure StockWithData where
  userId : String
  symbol : String
  company : String
  addedAt : Int
  currentPrice : Option ℚ := none
  changePercent : Option ℚ := none
  priceFormatted : Option String := none
  changeFormatted : Option String := none
  marketCap : Option String := none
  peRatio : Option String := none
  deriving Repr, DecidableEq

/-- JavaScript truthiness of `undefined | number`: `undefined` and `0` are
falsy, every other number is truthy. -/
def optTruthy (v : Option ℚ) : Bool :=
  match v with
  | none => false
  | some q => decide (q ≠ 0)

/-- JavaScript `a || b` on `undefined | number` operands: yields `a` when `a`
is truthy, otherwise `b`. -/
def jsOr (a b : Option ℚ) : Option ℚ :=
  if optTruthy a then a else b

/-- Left-pad a two-digit fraction part with a zero. -/
def pad2 (n : Nat) : String :=
  if n < 10 then String.append ("0") (toString n) else toString n

/-- Print a signed number of hundredths as a two-decimal string. -/
def fmtHundredths (n : Int) : String :=
  let a : Nat := n.natAbs
  let digits : String := String.append (toString (a / 100)) (String.append (".") (pad2 (a % 100)))
  if n < 0 then String.append ("-") digits else digits

/-- `x.toFixed(2)`: decimal representation of `q` rounded to two places. -/
def toFixed2 (q : ℚ) : String :=
  fmtHundredths (round (q * 100))

/-- `currentPrice ? dollarSign + currentPrice.toFixed(2) : undefined`. -/
def formatPrice (v : Option ℚ) : Option String :=
  if optTruthy v then v.map (fun q => String.append ("$") (toFixed2 q)) else none

/-- `changePercent ? (changePercent > 0 ? plus : empty) + changePercent.toFixed(2) + percent : undefined`. -/
def formatChange (v : Option ℚ) : Option String :=
  if optTruthy v then
    v.map (fun q =>
      String.append (if q > 0 then "+" else "") (String.append (toFixed2 q) ("%")))
  else none

/-- Market-cap rescaling: `>= 1e3` shown in trillions, `>= 1` in billions,
otherwise multiplied by `1e3` and shown in millions. -/
def marketCapString (q : ℚ) : String :=
  if q ≥ 1000 then String.append ("$") (String.append (toFixed2 (q / 1000)) ("T"))
  else if q ≥ 1 then String.append ("$") (String.append (toFixed2 q) ("B"))
  else String.append ("$") (String.append (toFixed2 (q * 1000)) ("M"))

/-- `marketCapValue ? (rescaled string) : undefined`. -/
def formatMarketCap (v : Option ℚ) : Option String :=
  if optTruthy v then v.map marketCapString else none

/-- `peRatioValue ? peRatioValue.toFixed(2) : undefined`. -/
def formatPe (v : Option ℚ) : Option String :=
  if optTruthy v then v.map toFixed2 else none

/-- `financialsData?.metric?.peExclExtraTTM || financialsData?.metric?.peNormalizedAnnual`. -/
def peCandidate (f : FinancialsData) : Option ℚ :=
  jsOr (f.metric.bind (fun m => m.peExclExtraTTM)) (f.metric.bind (fun m => m.peNormalizedAnnual))

/-- The merge step of `getUserWatchlist` (lines 72–96): builds the
`StockWithData` record from the three successfully parsed responses. -/
def mergeQuote (item : WatchlistItem) (q : QuoteData) (p : ProfileData) (f : FinancialsData) :
    StockWithData :=
  { userId := item.userId
    symbol := item.symbol
    company := item.company
    addedAt := item.addedAt
    currentPrice := q.c
    changePercent := q.dp
    priceFormatted := formatPrice q.c
    changeFormatted := formatChange q.dp
    marketCap := formatMarketCap p.marketCapitalization
    peRatio := formatPe (peCandidate f) }

/-- The degraded record built when enrichment is skipped or fails
(lines 43–48 and 100–105): only the stored fields, every live field absent. -/
def bare (item : WatchlistItem) : StockWithData :=
  { userId := item.userId
    symbol := item.symbol
    company := item.company
    addedAt := item.addedAt }

/-- The three upstream endpoints, each of which may throw. -/
structure Api where
  quote : String → Except String QuoteData
  profile : String → Except String ProfileData
  financials : String → Except String FinancialsData

/-- The body of the per-item `try` block (lines 57–96): the three fetches are
awaited in sequence, so a throw in an earlier one skips the later ones. -/
def enrichItemE (api : Api) (item : WatchlistItem) : Except String StockWithData := do
  let q ← api.quote item.symbol
  let p ← api.profile item.symbol
  let f ← api.financials item.symbol
  pure (mergeQuote item q p f)

/-- One item's enrichment including its `catch` (lines 97–106): any throw
degrades that item to its bare fields. -/
def enrichItem (api : Api) (item : WatchlistItem) : StockWithData :=
  match enrichItemE api item with
  | Except.ok s => s
  | Except.error _ => bare item

/-- `Promise.all(items.map(...))` over per-item enrichments (lines 54–108):
every item is enriched, each settling on its own. -/
def enrichAll (api : Api) (items : List WatchlistItem) : List StockWithData :=
  items.map (enrichItem api)

/-- The environment variables read on line 39. -/
structure Env where
  finnhubApiKey : Option String
  nextPublicFinnhubApiKey : Option String

/-- `process.env.FINNHUB_API_KEY ?? process.env.NEXT_PUBLIC_FINNHUB_API_KEY`
(nullish coalescing: the first variable wins whenever it is set, even empty). -/
def Env.token (e : Env) : Option String :=
  match e.finnhubApiKey with
  | some t => some t
  | none => e.nextPublicFinnhubApiKey

/-- JavaScript truthiness of `undefined | string`: `undefined` and the empty
string are falsy (`if (!token)` on line 40). -/
def strTruthy (v : Option String) : Bool :=
  match v with
  | none => false
  | some s => decide (s ≠ "")

/-- Sort key of `Watchlist.find({ userId }).sort({ addedAt: -1 })`:
most recently added first. -/
def byRecencyDesc (a b : WatchlistItem) : Prop :=
  b.addedAt ≤ a.addedAt

instance : DecidableRel byRecencyDesc :=
  fun a b => inferInstanceAs (Decidable (b.addedAt ≤ a.addedAt))

instance : IsTotal WatchlistItem byRecencyDesc :=
  ⟨fun a b => le_total b.addedAt a.addedAt⟩

instance : IsTrans WatchlistItem byRecencyDesc :=
  ⟨fun _ _ _ h1 h2 => le_trans h2 h1⟩

/-- The store's answer to `Watchlist.find({ userId }).sort({ addedAt: -1 })`:
the user's documents, most recently added first. -/
def findByUserSorted (store : List WatchlistItem) (userId : String) : List WatchlistItem :=
  List.insertionSort byRecencyDesc (store.filter (fun i => i.userId = userId))

/-- `getUserWatchlist` (lines 30–115).  `dbResult` is the outcome of the store
round-trip (connection plus query), already filtered and sorted when it
succeeds; a `dbResult` built with `findByUserSorted` models the query the code
issues.  An empty `userId` short-circuits before any store access; a store
failure is caught and swallowed to an empty list; without a truthy API token
every item is returned bare; otherwise every item is enriched. -/
def getUserWatchlist (env : Env) (api : Api)
    (dbResult : Except String (List WatchlistItem)) (userId : String) :
    List StockWithData :=
  if userId = "" then []
  else
    match dbResult with
    | Except.error _ => []
    | Except.ok items =>
      if strTruthy env.token then enrichAll api items
      else items.map bare

/-- The `{ success, message }` result of the write-path actions. -/
structure ActionResult where
  success : Bool
  message : String
  deriving Repr, DecidableEq

/-- Number of stored documents matching `{ userId, symbol }` (symbol already
uppercased). -/
def pairCount (store : List WatchlistItem) (userId symbol : String) : Nat :=
  (store.filter (fun e => e.userId = userId ∧ e.symbol = symbol)).length

/-- `symbol.toUpperCase()`: JavaScript uppercasing, character by character. -/
def jsToUpper (s : String) : String :=
  String.mk (s.data.map Char.toUpper)

/-- Modelled from the spec: the watchlist store's
insert-with-uniqueness-constraint.  The Mongoose schema enforcing the unique
compound index on `(userId, symbol)` lives in
`src/database/models/watchlist.model.ts`, outside the reviewed source; per the
spec, a second insert for the same pair fails distinguishably, surfaced as the
store's duplicate-key error code `11000`. -/
def storeCreate (store : List WatchlistItem) (item : WatchlistItem) :
    Except Nat (List WatchlistItem) :=
  if store.any (fun e => e.userId = item.userId ∧ e.symbol = item.symbol) then
    Except.error 11000
  else
    Except.ok (store ++ [item])

/-- `Watchlist.deleteOne({ userId, symbol })`: removes at most one matching
document and reports the affected count. -/
def storeDeleteOne (store : List WatchlistItem) (userId symbol : String) :
    List WatchlistItem × Nat :=
  match store with
  | [] => ([], 0)
  | e :: es =>
    if e.userId = userId ∧ e.symbol = symbol then (es, 1)
    else
      let r := storeDeleteOne es userId symbol
      (e :: r.1, r.2)

/-- `addToWatchlist` (lines 117–139).  `conn` is the outcome of
`connectToDatabase()`; a throw there (or any non-duplicate store failure) is
caught and mapped to the generic failure result. -/
def addToWatchlist (conn : Except String Unit) (store : List WatchlistItem)
    (userId symbol company : String) (now : Int) :
    List WatchlistItem × ActionResult :=
  if userId = "" ∨ symbol = "" ∨ company = "" then
    (store, ⟨ false, "Missing required fields"⟩)
  else
    match conn with
    | Except.error _ => (store, ⟨ false, "Failed to add to watchlist"⟩)
    | Except.ok _ =>
      match storeCreate store ⟨userId, jsToUpper symbol, company, now⟩ with
      | Except.ok store1 => (store1, ⟨ true, "Added to watchlist"⟩)
      | Except.error code =>
        if code = 11000 then (store, ⟨ false, "Stock already in watchlist"⟩)
        else (store, ⟨ false, "Failed to add to watchlist"⟩)

/-- `removeFromWatchlist` (lines 141–163). -/
def removeFromWatchlist (conn : Except String Unit) (store : List WatchlistItem)
    (userId symbol : String) :
    List WatchlistItem × ActionResult :=
  if userId = "" ∨ symbol = "" then
    (store, ⟨ false, "Missing required fields"⟩)
  else
    match conn with
    | Except.error _ => (store, ⟨ false, "Failed to remove from watchlist"⟩)
    | Except.ok _ =>
      let r := storeDeleteOne store userId (jsToUpper symbol)
      if r.2 = 0 then (store, ⟨ false, "Stock not found in watchlist"⟩)
      else (r.1, ⟨ true, "Removed from watchlist"⟩)

/-- Kind of a toast notification (`toast.success` / `toast.error`). -/
inductive ToastKind
  | success
  | error
  deriving Repr, DecidableEq

/-- A transient notification surfaced by the table component. -/
structure Toast where
  kind : ToastKind
  message : String
  deriving Repr, DecidableEq

/-- JavaScript `a || b` on strings: the empty string is falsy
(`result.message || "Failed to remove"`). -/
def jsOrStr (a b : String) : String :=
  if a = "" then b else a

/-- `handleRemove` in `WatchlistTable.tsx` (lines 14–29): `removeResult` is
the outcome of the awaited server action (a throw modelled as
`Except.error`).  On success the matching row is dropped from view state and a
success toast shown; on a failure result or a throw the view state is left
unchanged and an error toast shown. -/
def handleRemove (items : List StockWithData) (symbol : String)
    (removeResult : Except String ActionResult) : List StockWithData × Toast :=
  match removeResult with
  | Except.error _ => (items, ⟨ToastKind.error, "An error occurred"⟩)
  | Except.ok r =>
    if r.success then
      (items.filter (fun it => it.symbol ≠ symbol),
       ⟨ToastKind.success, "Removed from watchlist"⟩)
    else
      (items, ⟨ToastKind.error, jsOrStr r.message ("Failed to remove")⟩)

/-- The three upstream endpoints called per symbol. -/
inductive CallKind
  | quote
  | profile
  | financials
  deriving Repr, DecidableEq

/-- An observable step of one symbol's enrichment: a request being issued, or
a call settling (response or throw). -/
inductive FetchEvent
  | request (symbol : String) (kind : CallKind)
  | settle (symbol : String) (kind : CallKind)
  deriving Repr, DecidableEq

/-- The event trace of one item's enrichment (lines 57–70 of
`watchlist.actions.ts`): each fetch is awaited — issued and settled — before
the next one is issued, and a throw settles the call and skips the remaining
fetches of this item. -/
def enrichTraceOne (api : Api) (item : WatchlistItem) : List FetchEvent :=
  [FetchEvent.request item.symbol CallKind.quote,
   FetchEvent.settle item.symbol CallKind.quote] ++
  match api.quote item.symbol with
  | Except.error _ => []
  | Except.ok _ =>
    [FetchEvent.request item.symbol CallKind.profile,
     FetchEvent.settle item.symbol CallKind.profile] ++
    match api.profile item.symbol with
    | Except.error _ => []
    | Except.ok _ =>
      [FetchEvent.request item.symbol CallKind.financials,
       FetchEvent.settle item.symbol CallKind.financials]

/-- Whether a trace issues all of its requests before any call settles — the
shape a group of concurrently issued independent requests has. -/
def requestsBeforeSettles : List FetchEvent → Bool
  | [] => true
  | FetchEvent.request _ _ :: rest => requestsBeforeSettles rest
  | FetchEvent.settle _ _ :: rest =>
    rest.all (fun ev =>
      match ev with
      | FetchEvent.settle _ _ => true
      | FetchEvent.request _ _ => false)

/-- Whether an `Except` value is a throw. -/
def isErr {α : Type} (e : Except String α) : Bool :=
  match e with
  | Except.error _ => true
  | Except.ok _ => false

/-! ### Concrete fixtures used by the witnesses -/

/-- A sample stored item (added first). -/
def sampleItemA : WatchlistItem := ⟨"u1", "AAPL", "Apple Inc", 1⟩

/-- A sample stored item (added second). -/
def sampleItemM : WatchlistItem := ⟨"u1", "MSFT", "Microsoft", 2⟩

/-- A sample successful quote response. -/
def sampleQuote : QuoteData := ⟨some 123.4, some 2.5⟩

/-- A sample successful profile response. -/
def sampleProfile : ProfileData := ⟨some 2500⟩

/-- A sample successful financials response. -/
def sampleFinancials : FinancialsData := ⟨some ⟨some 12.5, none⟩⟩

/-- A sample upstream error message. -/
def netErr : String := "network error"

/-- An API on which every call succeeds with the sample responses. -/
def okApi : Api :=
  ⟨fun _ => Except.ok sampleQuote, fun _ => Except.ok sampleProfile,
   fun _ => Except.ok sampleFinancials⟩

/-- An API on which the quote call throws for one symbol and every other call
succeeds. -/
def failingApi (bad : String) : Api :=
  ⟨fun s => if s = bad then Except.error netErr else Except.ok sampleQuote,
   fun _ => Except.ok sampleProfile, fun _ => Except.ok sampleFinancials⟩

/-- An environment with no API credential configured. -/
def noTokenEnv : Env := ⟨none, none⟩

/-- An environment with an API credential configured. -/
def tokenEnv : Env := ⟨some ("fh-key"), none⟩

/-! ### Evaluation helpers for the formatting functions -/

theorem toFixed2_of_round (q : ℚ) (n : Int) (h : round (q * 100) = n) :
    toFixed2 q = fmtHundredths n := by
  rw [toFixed2, h]

theorem optTruthy_pos {q : ℚ} (h : q ≠ 0) : optTruthy (some q) = true := by
  simp [optTruthy, h]

theorem optTruthy_zero : optTruthy (some 0) = false := by
  simp [optTruthy]

theorem optTruthy_none : optTruthy none = false := rfl

theorem formatPrice_pos {q : ℚ} (h : q ≠ 0) :
    formatPrice (some q) = some (String.append ("$") (toFixed2 q)) := by
  simp [formatPrice, optTruthy_pos h]

theorem formatPrice_zero : formatPrice (some 0) = none := by
  simp [formatPrice, optTruthy_zero]

theorem formatPrice_none : formatPrice none = none := rfl

theorem formatChange_pos {q : ℚ} (h : 0 < q) :
    formatChange (some q) = some (String.append ("+") (String.append (toFixed2 q) ("%"))) := by
  simp [formatChange, optTruthy_pos (ne_of_gt h), h]

theorem formatChange_neg {q : ℚ} (h : q < 0) :
    formatChange (some q) = some (String.append (toFixed2 q) ("%")) := by
  simp [formatChange, optTruthy_pos (ne_of_lt h), not_lt_of_lt h]
  rfl

theorem formatChange_zero : formatChange (some 0) = none := by
  simp [formatChange, optTruthy_zero]

theorem formatChange_none : formatChange none = none := rfl

theorem marketCapString_trillions {q : ℚ} (h : q ≥ 1000) :
    marketCapString q = String.append ("$") (String.append (toFixed2 (q / 1000)) ("T")) := by
  rw [marketCapString, if_pos h]

theorem marketCapString_billions {q : ℚ} (h1 : ¬ q ≥ 1000) (h2 : q ≥ 1) :
    marketCapString q = String.append ("$") (String.append (toFixed2 q) ("B")) := by
  rw [marketCapString, if_neg h1, if_pos h2]

theorem marketCapString_millions {q : ℚ} (h1 : ¬ q ≥ 1000) (h2 : ¬ q ≥ 1) :
    marketCapString q = String.append ("$") (String.append (toFixed2 (q * 1000)) ("M")) := by
  rw [marketCapString, if_neg h1, if_neg h2]

theorem formatMarketCap_pos {q : ℚ} (h : q ≠ 0) :
    formatMarketCap (some q) = some (marketCapString q) := by
  simp [formatMarketCap, optTruthy_pos h]

theorem formatMarketCap_zero : formatMarketCap (some 0) = none := by
  simp [formatMarketCap, optTruthy_zero]

theorem formatMarketCap_none : formatMarketCap none = none := rfl

theorem formatPe_pos {q : ℚ} (h : q ≠ 0) : formatPe (some q) = some (toFixed2 q) := by
  simp [formatPe, optTruthy_pos h]

theorem formatPe_zero : formatPe (some 0) = none := by
  simp [formatPe, optTruthy_zero]

theorem formatPe_none : formatPe none = none := rfl

theorem peCandidate_prefers {x : ℚ} (m : MetricData) (hx : m.peExclExtraTTM = some x)
    (hne : x ≠ 0) : peCandidate ⟨some m⟩ = some x := by
  simp [peCandidate, hx, jsOr, optTruthy_pos hne]

theorem peCandidate_fallback (m : MetricData) (hx : m.peExclExtraTTM = none) :
    peCandidate ⟨some m⟩ = m.peNormalizedAnnual := by
  simp [peCandidate, hx, jsOr, optTruthy_none]

/-- C3: the enrichment merge formats price 123.4 as "$123.40", percent change
2.5 as "+2.50%" and -1.2 as "-1.20%", market capitalization 2500 as "$2.50T",
45 as "$45.00B" and 0.5 as "$500.00M" (values ≥ 1000 shown as trillions,
values ≥ 1 as billions, smaller values rescaled upward to millions), and
formats the P/E ratio to two decimal places, preferring the peExclExtraTTM
field and falling back to peNormalizedAnnual when it is absent. -/
theorem c3_merge_formatting_rules :
    (∀ item : WatchlistItem,
      (mergeQuote item ⟨some 123.4, some 2.5⟩ ⟨some 2500⟩ ⟨some ⟨some 12.5, none⟩⟩).priceFormatted
        = some ("$123.40") ∧
      (mergeQuote item ⟨some 123.4, some 2.5⟩ ⟨some 2500⟩ ⟨some ⟨some 12.5, none⟩⟩).changeFormatted
        = some ("+2.50%") ∧
      (mergeQuote item ⟨some 123.4, some 2.5⟩ ⟨some 2500⟩ ⟨some ⟨some 12.5, none⟩⟩).marketCap
        = some ("$2.50T") ∧
      (mergeQuote item ⟨some 123.4, some 2.5⟩ ⟨some 2500⟩ ⟨some ⟨some 12.5, none⟩⟩).peRatio
        = some ("12.50")) ∧
    (∀ item : WatchlistItem,
      (mergeQuote item ⟨none, some (-1.2)⟩ ⟨some 45⟩ ⟨some ⟨none, some 8⟩⟩).changeFormatted
        = some ("-1.20%") ∧
      (mergeQuote item ⟨none, some (-1.2)⟩ ⟨some 45⟩ ⟨some ⟨none, some 8⟩⟩).marketCap
        = some ("$45.00B") ∧
      (mergeQuote item ⟨none, some (-1.2)⟩ ⟨some 45⟩ ⟨some ⟨none, some 8⟩⟩).peRatio
        = some ("8.00")) ∧
    (∀ item : WatchlistItem,
      (mergeQuote item ⟨none, none⟩ ⟨some 0.5⟩ ⟨none⟩).marketCap = some ("$500.00M")) ∧
    (∀ q : ℚ, q ≥ 1000 →
      marketCapString q = String.append ("$") (String.append (toFixed2 (q / 1000)) ("T"))) ∧
    (∀ q : ℚ, ¬ q ≥ 1000 → q ≥ 1 →
      marketCapString q = String.append ("$") (String.append (toFixed2 q) ("B"))) ∧
    (∀ q : ℚ, q < 1 →
      marketCapString q = String.append ("$") (String.append (toFixed2 (q * 1000)) ("M"))) ∧
    (∀ (x : ℚ) (m : MetricData), m.peExclExtraTTM = some x → x ≠ 0 →
      peCandidate ⟨some m⟩ = some x) ∧
    (∀ m : MetricData, m.peExclExtraTTM = none →
      peCandidate ⟨some m⟩ = m.peNormalizedAnnual) ∧
    (∀ q : ℚ, q ≠ 0 → formatPe (some q) = some (toFixed2 q)) := by
  refine ⟨?_, ?_, ?_, ?_, ?_, ?_, ?_, ?_, ?_⟩
  · intro item
    refine ⟨?_, ?_, ?_, ?_⟩
    · show formatPrice (some 123.4) = some ("$123.40")
      rw [formatPrice_pos (by norm_num), toFixed2_of_round 123.4 12340 (by norm_num [round_eq])]
      decide
    · show formatChange (some 2.5) = some ("+2.50%")
      rw [formatChange_pos (by norm_num), toFixed2_of_round 2.5 250 (by norm_num [round_eq])]
      decide
    · show formatMarketCap (some 2500) = some ("$2.50T")
      rw [formatMarketCap_pos (by norm_num), marketCapString_trillions (by norm_num),
        toFixed2_of_round (2500 / 1000) 250 (by norm_num [round_eq])]
      decide
    · show formatPe (peCandidate ⟨some ⟨some 12.5, none⟩⟩) = some ("12.50")
      rw [peCandidate_prefers _ rfl (by norm_num), formatPe_pos (by norm_num),
        toFixed2_of_round 12.5 1250 (by norm_num [round_eq])]
      decide
  · intro item
    refine ⟨?_, ?_, ?_⟩
    · show formatChange (some (-1.2)) = some ("-1.20%")
      rw [formatChange_neg (by norm_num), toFixed2_of_round (-1.2) (-120) (by norm_num [round_eq])]
      decide
    · show formatMarketCap (some 45) = some ("$45.00B")
      rw [formatMarketCap_pos (by norm_num), marketCapString_billions (by norm_num) (by norm_num),
        toFixed2_of_round 45 4500 (by norm_num [round_eq])]
      decide
    · show formatPe (peCandidate ⟨some ⟨none, some 8⟩⟩) = some ("8.00")
      rw [peCandidate_fallback _ rfl, formatPe_pos (by norm_num),
        toFixed2_of_round 8 800 (by norm_num [round_eq])]
      decide
  · intro item
    show formatMarketCap (some 0.5) = some ("$500.00M")
    rw [formatMarketCap_pos (by norm_num), marketCapString_millions (by norm_num) (by norm_num),
      toFixed2_of_round (0.5 * 1000) 50000 (by norm_num [round_eq])]
    decide
  · intro q h
    exact marketCapString_trillions h
  · intro q h1 h2
    exact marketCapString_billions h1 h2
  · intro q h
    exact marketCapString_millions (by push_neg; linarith) (by push_neg; linarith)
  · intro x m hx hne
    exact peCandidate_prefers m hx hne
  · intro m hx
    exact peCandidate_fallback m hx
  · intro q h
    exact formatPe_pos h

/-- Witness for C3: the magnitude and preference rules applied at the
concrete inputs named by the claim. -/
theorem c3_merge_formatting_rules_witness :
    marketCapString 2500 = String.append ("$") (String.append (toFixed2 (2500 / 1000)) ("T")) ∧
    marketCapString 45 = String.append ("$") (String.append (toFixed2 45) ("B")) ∧
    marketCapString 0.5 = String.append ("$") (String.append (toFixed2 (0.5 * 1000)) ("M")) ∧
    peCandidate ⟨some ⟨some 12.5, none⟩⟩ = some 12.5 ∧
    peCandidate ⟨some ⟨none, some 8⟩⟩ = some 8 ∧
    formatPe (some 8) = some (toFixed2 8) :=
  ⟨c3_merge_formatting_rules.2.2.2.1 2500 (by norm_num),
   c3_merge_formatting_rules.2.2.2.2.1 45 (by norm_num) (by norm_num),
   c3_merge_formatting_rules.2.2.2.2.2.1 0.5 (by norm_num),
   c3_merge_formatting_rules.2.2.2.2.2.2.1 12.5 ⟨some 12.5, none⟩ rfl (by norm_num),
   c3_merge_formatting_rules.2.2.2.2.2.2.2.1 ⟨none, some 8⟩ rfl,
   c3_merge_formatting_rules.2.2.2.2.2.2.2.2 8 (by norm_num)⟩

/-- C10: when an upstream numeric value is exactly zero (price 0, percent
change 0, market capitalization 0, or resolved P/E 0), the raw field is
exposed as returned but the corresponding formatted field is absent,
indistinguishable at the interface from the degraded record produced when the
upstream calls fail. -/
theorem c10_zero_values_formatted_absent :
    ∀ (item : WatchlistItem) (q : QuoteData) (p : ProfileData) (f : FinancialsData),
    q.c = some 0 → q.dp = some 0 → p.marketCapitalization = some 0 → peCandidate f = some 0 →
    (mergeQuote item q p f).currentPrice = some 0 ∧
    (mergeQuote item q p f).changePercent = some 0 ∧
    (mergeQuote item q p f).priceFormatted = none ∧
    (mergeQuote item q p f).changeFormatted = none ∧
    (mergeQuote item q p f).marketCap = none ∧
    (mergeQuote item q p f).peRatio = none ∧
    (mergeQuote item q p f).priceFormatted = (bare item).priceFormatted ∧
    (mergeQuote item q p f).changeFormatted = (bare item).changeFormatted ∧
    (mergeQuote item q p f).marketCap = (bare item).marketCap ∧
    (mergeQuote item q p f).peRatio = (bare item).peRatio := by
  intro item q p f hc hdp hmc hpe
  refine ⟨?_, ?_, ?_, ?_, ?_, ?_, ?_, ?_, ?_, ?_⟩
  · show q.c = some 0
    exact hc
  · show q.dp = some 0
    exact hdp
  · show formatPrice q.c = none
    rw [hc, formatPrice_zero]
  · show formatChange q.dp = none
    rw [hdp, formatChange_zero]
  · show formatMarketCap p.marketCapitalization = none
    rw [hmc, formatMarketCap_zero]
  · show formatPe (peCandidate f) = none
    rw [hpe, formatPe_zero]
  · show formatPrice q.c = (bare item).priceFormatted
    rw [hc, formatPrice_zero]
    rfl
  · show formatChange q.dp = (bare item).changeFormatted
    rw [hdp, formatChange_zero]
    rfl
  · show formatMarketCap p.marketCapitalization = (bare item).marketCap
    rw [hmc, formatMarketCap_zero]
    rfl
  · show formatPe (peCandidate f) = (bare item).peRatio
    rw [hpe, formatPe_zero]
    rfl

/-- Witness for C10: all-zero upstream data for one concrete item. -/
theorem c10_zero_values_formatted_absent_witness :
    (mergeQuote ⟨"u1", "AAPL", "Apple Inc", 1⟩ ⟨some 0, some 0⟩ ⟨some 0⟩
        ⟨some ⟨some 0, some 0⟩⟩).priceFormatted = none ∧
    (mergeQuote ⟨"u1", "AAPL", "Apple Inc", 1⟩ ⟨some 0, some 0⟩ ⟨some 0⟩
        ⟨some ⟨some 0, some 0⟩⟩).peRatio = none :=
  ⟨(c10_zero_values_formatted_absent ⟨"u1", "AAPL", "Apple Inc", 1⟩ ⟨some 0, some 0⟩ ⟨some 0⟩
      ⟨some ⟨some 0, some 0⟩⟩ rfl rfl rfl
      (by simp [peCandidate, jsOr, optTruthy])).2.2.1,
   (c10_zero_values_formatted_absent ⟨"u1", "AAPL", "Apple Inc", 1⟩ ⟨some 0, some 0⟩ ⟨some 0⟩
      ⟨some ⟨some 0, some 0⟩⟩ rfl rfl rfl
      (by simp [peCandidate, jsOr, optTruthy])).2.2.2.2.2.1⟩

/-! ### Behaviour of one item's enrichment -/

theorem enrichItemE_quote_err {api : Api} {it : WatchlistItem} {e : String}
    (h : api.quote it.symbol = Except.error e) : enrichItemE api it = Except.error e := by
  simp [enrichItemE, h, Bind.bind, Except.bind]

theorem enrichItemE_profile_err {api : Api} {it : WatchlistItem} {q : QuoteData} {e : String}
    (hq : api.quote it.symbol = Except.ok q)
    (h : api.profile it.symbol = Except.error e) : enrichItemE api it = Except.error e := by
  simp [enrichItemE, hq, h, Bind.bind, Except.bind]

theorem enrichItemE_fin_err {api : Api} {it : WatchlistItem} {q : QuoteData} {p : ProfileData}
    {e : String} (hq : api.quote it.symbol = Except.ok q)
    (hp : api.profile it.symbol = Except.ok p)
    (h : api.financials it.symbol = Except.error e) : enrichItemE api it = Except.error e := by
  simp [enrichItemE, hq, hp, h, Bind.bind, Except.bind, Functor.map, Except.map]

theorem enrichItemE_ok {api : Api} {it : WatchlistItem} {q : QuoteData} {p : ProfileData}
    {f : FinancialsData} (hq : api.quote it.symbol = Except.ok q)
    (hp : api.profile it.symbol = Except.ok p)
    (hf : api.financials it.symbol = Except.ok f) :
    enrichItemE api it = Except.ok (mergeQuote it q p f) := by
  simp [enrichItemE, hq, hp, hf, Bind.bind, Except.bind, Functor.map, Except.map, pure,
    Except.pure]

theorem enrichItem_of_any_err {api : Api} {it : WatchlistItem}
    (h : isErr (api.quote it.symbol) = true ∨ isErr (api.profile it.symbol) = true ∨
      isErr (api.financials it.symbol) = true) :
    enrichItem api it = bare it := by
  rcases hq : api.quote it.symbol with e | q
  · rw [enrichItem, enrichItemE_quote_err hq]
  · rcases hp : api.profile it.symbol with e | p
    · rw [enrichItem, enrichItemE_profile_err hq hp]
    · rcases hf : api.financials it.symbol with e | f
      · rw [enrichItem, enrichItemE_fin_err hq hp hf]
      · rcases h with h | h | h
        · rw [hq] at h
          simp [isErr] at h
        · rw [hp] at h
          simp [isErr] at h
        · rw [hf] at h
          simp [isErr] at h

theorem enrichItem_of_ok {api : Api} {it : WatchlistItem} {q : QuoteData} {p : ProfileData}
    {f : FinancialsData} (hq : api.quote it.symbol = Except.ok q)
    (hp : api.profile it.symbol = Except.ok p)
    (hf : api.financials it.symbol = Except.ok f) :
    enrichItem api it = mergeQuote it q p f := by
  rw [enrichItem, enrichItemE_ok hq hp hf]

theorem enrichItem_cases (api : Api) (it : WatchlistItem) :
    enrichItem api it = bare it ∨
    ∃ q p f, enrichItem api it = mergeQuote it q p f := by
  rcases hq : api.quote it.symbol with e | q
  · exact Or.inl (by rw [enrichItem, enrichItemE_quote_err hq])
  · rcases hp : api.profile it.symbol with e | p
    · exact Or.inl (by rw [enrichItem, enrichItemE_profile_err hq hp])
    · rcases hf : api.financials it.symbol with e | f
      · exact Or.inl (by rw [enrichItem, enrichItemE_fin_err hq hp hf])
      · exact Or.inr ⟨q, p, f, enrichItem_of_ok hq hp hf⟩

theorem enrichItem_symbol (api : Api) (it : WatchlistItem) :
    (enrichItem api it).symbol = it.symbol := by
  rcases enrichItem_cases api it with h | ⟨q, p, f, h⟩ <;> rw [h] <;> rfl

theorem enrichItem_addedAt (api : Api) (it : WatchlistItem) :
    (enrichItem api it).addedAt = it.addedAt := by
  rcases enrichItem_cases api it with h | ⟨q, p, f, h⟩ <;> rw [h] <;> rfl

theorem enrichItem_userId (api : Api) (it : WatchlistItem) :
    (enrichItem api it).userId = it.userId := by
  rcases enrichItem_cases api it with h | ⟨q, p, f, h⟩ <;> rw [h] <;> rfl

theorem enrichItem_local {api api2 : Api} {it : WatchlistItem}
    (h1 : api2.quote it.symbol = api.quote it.symbol)
    (h2 : api2.profile it.symbol = api.profile it.symbol)
    (h3 : api2.financials it.symbol = api.financials it.symbol) :
    enrichItem api2 it = enrichItem api it := by
  rw [enrichItem, enrichItem, enrichItemE, enrichItemE, h1, h2, h3]

/-- C1: when the upstream calls for one symbol throw and the calls for the
other entries succeed, the enrichment returns a list of the same length and
ordering as the input, the failing symbol's record degrades to the bare
fields, every other record is the merge of its own data — evaluated
independently of the failing symbol — and the failure aborts nothing. -/
theorem c1_per_symbol_failure_isolated :
    ∀ (api : Api) (items : List WatchlistItem) (bad : String),
    (isErr (api.quote bad) = true ∨ isErr (api.profile bad) = true ∨
      isErr (api.financials bad) = true) →
    (enrichAll api items).length = items.length ∧
    (enrichAll api items).map (fun s => s.symbol) = items.map (fun i => i.symbol) ∧
    (∀ it ∈ items, it.symbol = bad → enrichItem api it = bare it) ∧
    (∀ it ∈ items, it.symbol ≠ bad → ∀ (q : QuoteData) (p : ProfileData) (f : FinancialsData),
      api.quote it.symbol = Except.ok q → api.profile it.symbol = Except.ok p →
      api.financials it.symbol = Except.ok f → enrichItem api it = mergeQuote it q p f) ∧
    (∀ (api2 : Api), ∀ it ∈ items,
      api2.quote it.symbol = api.quote it.symbol →
      api2.profile it.symbol = api.profile it.symbol →
      api2.financials it.symbol = api.financials it.symbol →
      enrichItem api2 it = enrichItem api it) := by
  intro api items bad hbad
  refine ⟨by simp [enrichAll], ?_, ?_, ?_, ?_⟩
  · rw [enrichAll, List.map_map]
    exact List.map_congr_left (fun it _ => enrichItem_symbol api it)
  · intro it _ hsym
    apply enrichItem_of_any_err
    rw [hsym]
    exact hbad
  · intro it _ _ q p f hq hp hf
    exact enrichItem_of_ok hq hp hf
  · intro api2 it _ h1 h2 h3
    exact enrichItem_local h1 h2 h3

/-- Witness for C1: quote throws for AAPL, everything else succeeds; the
batch of two items keeps its length and AAPL degrades to its bare fields. -/
theorem c1_per_symbol_failure_isolated_witness :
    (enrichAll (failingApi sampleItemA.symbol) [sampleItemM, sampleItemA]).length = 2 ∧
    enrichItem (failingApi sampleItemA.symbol) sampleItemA = bare sampleItemA := by
  have h := c1_per_symbol_failure_isolated (failingApi sampleItemA.symbol)
    [sampleItemM, sampleItemA] sampleItemA.symbol (Or.inl (by decide))
  exact ⟨h.1, h.2.2.1 sampleItemA (by simp) rfl⟩

/-- C2: with no API credential configured, getUserWatchlist skips enrichment
and returns each entry mapped to its bare fields, every numeric and formatted
field absent — a returned result, not an error. -/
theorem c2_no_credential_degraded :
    ∀ (env : Env) (api : Api) (items : List WatchlistItem) (userId : String),
    userId ≠ "" → strTruthy env.token = false →
    getUserWatchlist env api (Except.ok items) userId = items.map bare ∧
    ∀ s ∈ getUserWatchlist env api (Except.ok items) userId,
      s.currentPrice = none ∧ s.changePercent = none ∧ s.priceFormatted = none ∧
      s.changeFormatted = none ∧ s.marketCap = none ∧ s.peRatio = none := by
  intro env api items userId hu ht
  have hmain : getUserWatchlist env api (Except.ok items) userId = items.map bare := by
    simp [getUserWatchlist, hu, ht]
  refine ⟨hmain, ?_⟩
  intro s hs
  rw [hmain] at hs
  rcases List.mem_map.mp hs with ⟨i, _, rfl⟩
  exact ⟨rfl, rfl, rfl, rfl, rfl, rfl⟩

/-- Witness for C2: a two-entry list under an environment with no key. -/
theorem c2_no_credential_degraded_witness :
    getUserWatchlist noTokenEnv okApi (Except.ok [sampleItemM, sampleItemA]) ("u1")
      = [bare sampleItemM, bare sampleItemA] := by
  have h := c2_no_credential_degraded noTokenEnv okApi [sampleItemM, sampleItemA] ("u1")
    (by decide) (by decide)
  simpa using h.1

/-- C7: read paths are total and fail open — an empty userId returns an empty
list whatever the store would have answered, any store failure during the
list is swallowed to an empty list, and the write-path actions translate a
store failure into a returned failure result rather than a raised error. -/
theorem c7_read_paths_fail_open :
    (∀ (env : Env) (api : Api) (db : Except String (List WatchlistItem)),
      getUserWatchlist env api db ("") = []) ∧
    (∀ (env : Env) (api : Api) (e : String) (userId : String),
      getUserWatchlist env api (Except.error e) userId = []) ∧
    (∀ (e : String) (store : List WatchlistItem) (u s c : String) (now : Int),
      u ≠ "" → s ≠ "" → c ≠ "" →
      addToWatchlist (Except.error e) store u s c now
        = (store, ⟨ false, "Failed to add to watchlist"⟩)) ∧
    (∀ (e : String) (store : List WatchlistItem) (u s : String),
      u ≠ "" → s ≠ "" →
      removeFromWatchlist (Except.error e) store u s
        = (store, ⟨ false, "Failed to remove from watchlist"⟩)) := by
  refine ⟨?_, ?_, ?_, ?_⟩
  · intro env api db
    simp [getUserWatchlist]
  · intro env api e userId
    by_cases h : userId = "" <;> simp [getUserWatchlist, h]
  · intro e store u s c now hu hs hc
    simp [addToWatchlist, hu, hs, hc]
  · intro e store u s hu hs
    simp [removeFromWatchlist, hu, hs]

/-- Witness for C7: a failing store connection at concrete inputs. -/
theorem c7_read_paths_fail_open_witness :
    getUserWatchlist tokenEnv okApi (Except.error netErr) ("u1") = [] ∧
    addToWatchlist (Except.error netErr) [] ("u1") ("aapl") ("Apple Inc") 1
      = ([], ⟨ false, "Failed to add to watchlist"⟩) ∧
    removeFromWatchlist (Except.error netErr) [sampleItemA] ("u1") ("aapl")
      = ([sampleItemA], ⟨ false, "Failed to remove from watchlist"⟩) :=
  ⟨c7_read_paths_fail_open.2.1 tokenEnv okApi netErr ("u1"),
   c7_read_paths_fail_open.2.2.1 netErr [] ("u1") ("aapl") ("Apple Inc") 1
     (by decide) (by decide) (by decide),
   c7_read_paths_fail_open.2.2.2 netErr [sampleItemA] ("u1") ("aapl")
     (by decide) (by decide)⟩

/-- C4: the list is the user's entries ordered most recently added first
(addedAt descending), enrichment preserves that ordering, and for the
concrete AAPL-at-1 / MSFT-at-2 store the result lists MSFT before AAPL. -/
theorem c4_list_most_recent_first :
    (∀ (env : Env) (api : Api) (store : List WatchlistItem) (userId : String),
      List.Pairwise (fun a b => b.addedAt ≤ a.addedAt)
        (getUserWatchlist env api (Except.ok (findByUserSorted store userId)) userId) ∧
      ∀ s ∈ getUserWatchlist env api (Except.ok (findByUserSorted store userId)) userId,
        s.userId = userId) ∧
    (∀ (api : Api) (items : List WatchlistItem),
      (enrichAll api items).map (fun s => s.addedAt) = items.map (fun i => i.addedAt) ∧
      (enrichAll api items).map (fun s => s.symbol) = items.map (fun i => i.symbol)) ∧
    getUserWatchlist noTokenEnv okApi
      (Except.ok (findByUserSorted [sampleItemA, sampleItemM] ("u1"))) ("u1")
      = [bare sampleItemM, bare sampleItemA] ∧
    sampleItemA.addedAt < sampleItemM.addedAt := by
  refine ⟨?_, ?_, by decide, by decide⟩
  · intro env api store userId
    by_cases hu : userId = ""
    · simp [getUserWatchlist, hu]
    · have hsorted : List.Pairwise byRecencyDesc (findByUserSorted store userId) :=
        List.sorted_insertionSort byRecencyDesc _
      have hmem : ∀ i ∈ findByUserSorted store userId, i.userId = userId := by
        intro i hi
        rw [findByUserSorted] at hi
        have h1 := (List.perm_insertionSort byRecencyDesc _).mem_iff.mp hi
        have h2 := List.mem_filter.mp h1
        exact of_decide_eq_true h2.2
      by_cases ht : strTruthy env.token
      · constructor
        · simp only [getUserWatchlist, if_neg hu, ht, if_pos]
          exact hsorted.map _ (fun a b h => by
            show (enrichItem api b).addedAt ≤ (enrichItem api a).addedAt
            rw [enrichItem_addedAt, enrichItem_addedAt]
            exact h)
        · intro s hs
          simp only [getUserWatchlist, if_neg hu, ht, if_pos] at hs
          rcases List.mem_map.mp hs with ⟨i, hi, rfl⟩
          rw [enrichItem_userId]
          exact hmem i hi
      · constructor
        · simp only [getUserWatchlist, if_neg hu]
          rw [if_neg (by simp [ht])]
          exact hsorted.map _ (fun a b h => by
            show (bare b).addedAt ≤ (bare a).addedAt
            exact h)
        · intro s hs
          simp only [getUserWatchlist, if_neg hu] at hs
          rw [if_neg (by simp [ht])] at hs
          rcases List.mem_map.mp hs with ⟨i, hi, rfl⟩
          exact hmem i hi
  · intro api items
    constructor
    · rw [enrichAll, List.map_map]
      exact List.map_congr_left (fun it _ => enrichItem_addedAt api it)
    · rw [enrichAll, List.map_map]
      exact List.map_congr_left (fun it _ => enrichItem_symbol api it)

/-- Witness for C4: the ordering facts applied at the concrete store. -/
theorem c4_list_most_recent_first_witness :
    List.Pairwise (fun (a b : StockWithData) => b.addedAt ≤ a.addedAt)
      (getUserWatchlist noTokenEnv okApi
        (Except.ok (findByUserSorted [sampleItemA, sampleItemM] ("u1"))) ("u1")) ∧
    (bare sampleItemM).userId = ("u1") :=
  ⟨(c4_list_most_recent_first.1 noTokenEnv okApi [sampleItemA, sampleItemM] ("u1")).1,
   (c4_list_most_recent_first.1 noTokenEnv okApi [sampleItemA, sampleItemM] ("u1")).2
     (bare sampleItemM) (by decide)⟩

/-- C8 as stated is refuted: with every upstream call succeeding, the trace of
one item's enrichment settles the quote call before the profile request is
issued, so the three requests are not issued concurrently as independent
requests. -/
theorem c8_counterexample_sequential_calls :
    requestsBeforeSettles (enrichTraceOne okApi sampleItemA) = false := by
  decide

/-- C8 amended: for every entry the three upstream requests are issued
sequentially — quote, then profile, then financial metrics, each issued only
after the previous call settles, and a throw skips the remaining calls of
that item; per-symbol enrichments are independent of one another; and the
batch completes with one result per input item, with no early cancellation
on first failure. -/
theorem c8_sequential_fanout :
    (∀ (api : Api) (item : WatchlistItem) (q : QuoteData) (p : ProfileData) (f : FinancialsData),
      api.quote item.symbol = Except.ok q → api.profile item.symbol = Except.ok p →
      api.financials item.symbol = Except.ok f →
      enrichTraceOne api item =
        [FetchEvent.request item.symbol CallKind.quote,
         FetchEvent.settle item.symbol CallKind.quote,
         FetchEvent.request item.symbol CallKind.profile,
         FetchEvent.settle item.symbol CallKind.profile,
         FetchEvent.request item.symbol CallKind.financials,
         FetchEvent.settle item.symbol CallKind.financials]) ∧
    (∀ (api : Api) (item : WatchlistItem) (e : String),
      api.quote item.symbol = Except.error e →
      enrichTraceOne api item =
        [FetchEvent.request item.symbol CallKind.quote,
         FetchEvent.settle item.symbol CallKind.quote]) ∧
    (∀ (api api2 : Api) (item : WatchlistItem),
      api2.quote item.symbol = api.quote item.symbol →
      api2.profile item.symbol = api.profile item.symbol →
      api2.financials item.symbol = api.financials item.symbol →
      enrichTraceOne api2 item = enrichTraceOne api item ∧
      enrichItem api2 item = enrichItem api item) ∧
    (∀ (api : Api) (items : List WatchlistItem),
      (enrichAll api items).length = items.length) := by
  refine ⟨?_, ?_, ?_, ?_⟩
  · intro api item q p f hq hp hf
    simp [enrichTraceOne, hq, hp]
  · intro api item e hq
    simp [enrichTraceOne, hq]
  · intro api api2 item h1 h2 h3
    constructor
    · rw [enrichTraceOne, enrichTraceOne, h1, h2]
    · exact enrichItem_local h1 h2 h3
  · intro api items
    simp [enrichAll]

/-- Witness for C8 amended: the sequential trace of one item under the
all-succeeding API. -/
theorem c8_sequential_fanout_witness :
    enrichTraceOne okApi sampleItemA =
      [FetchEvent.request sampleItemA.symbol CallKind.quote,
       FetchEvent.settle sampleItemA.symbol CallKind.quote,
       FetchEvent.request sampleItemA.symbol CallKind.profile,
       FetchEvent.settle sampleItemA.symbol CallKind.profile,
       FetchEvent.request sampleItemA.symbol CallKind.financials,
       FetchEvent.settle sampleItemA.symbol CallKind.financials] :=
  c8_sequential_fanout.1 okApi sampleItemA sampleQuote sampleProfile sampleFinancials
    rfl rfl rfl

/-- C9: in the presentation adapter, a successful removal drops exactly the
rows whose symbol matches and keeps every other row; a failure result or a
throw leaves the view state entirely unchanged and surfaces only an error
toast. -/
theorem c9_handle_remove_frame :
    (∀ (items : List StockWithData) (symbol m : String),
      (handleRemove items symbol (Except.ok ⟨ true, m⟩)).1
        = items.filter (fun it => it.symbol ≠ symbol) ∧
      (handleRemove items symbol (Except.ok ⟨ true, m⟩)).2.kind = ToastKind.success) ∧
    (∀ (items : List StockWithData) (symbol m : String),
      handleRemove items symbol (Except.ok ⟨ false, m⟩)
        = (items, ⟨ToastKind.error, jsOrStr m ("Failed to remove")⟩)) ∧
    (∀ (items : List StockWithData) (symbol e : String),
      handleRemove items symbol (Except.error e)
        = (items, ⟨ToastKind.error, "An error occurred"⟩)) ∧
    (∀ (items : List StockWithData) (symbol m : String) (it : StockWithData),
      it ∈ items → it.symbol ≠ symbol →
      it ∈ (handleRemove items symbol (Except.ok ⟨ true, m⟩)).1) ∧
    (∀ (items : List StockWithData) (symbol m : String) (it : StockWithData),
      it ∈ (handleRemove items symbol (Except.ok ⟨ true, m⟩)).1 →
      it ∈ items ∧ it.symbol ≠ symbol) := by
  refine ⟨?_, ?_, ?_, ?_, ?_⟩
  · intro items symbol m
    exact ⟨rfl, rfl⟩
  · intro items symbol m
    rfl
  · intro items symbol e
    rfl
  · intro items symbol m it hin hne
    show it ∈ items.filter (fun x => x.symbol ≠ symbol)
    exact List.mem_filter.mpr ⟨hin, decide_eq_true hne⟩
  · intro items symbol m it hin
    have h := List.mem_filter.mp hin
    exact ⟨h.1, of_decide_eq_true h.2⟩

/-- Witness for C9: removing AAPL from a two-row view keeps only MSFT. -/
theorem c9_handle_remove_frame_witness :
    (handleRemove [bare sampleItemA, bare sampleItemM] (sampleItemA.symbol)
        (Except.ok ⟨ true, "Removed from watchlist"⟩)).1 = [bare sampleItemM] ∧
    bare sampleItemM ∈ (handleRemove [bare sampleItemA, bare sampleItemM] (sampleItemA.symbol)
        (Except.ok ⟨ true, "Removed from watchlist"⟩)).1 := by
  constructor
  · rw [(c9_handle_remove_frame.1 [bare sampleItemA, bare sampleItemM] (sampleItemA.symbol)
      ("Removed from watchlist")).1]
    decide
  · exact c9_handle_remove_frame.2.2.2.1 [bare sampleItemA, bare sampleItemM]
      (sampleItemA.symbol) ("Removed from watchlist") (bare sampleItemM)
      (by decide) (by decide)

/-! ### Counting and mutating store documents -/

theorem pairCount_cons (e : WatchlistItem) (l : List WatchlistItem) (u s : String) :
    pairCount (e :: l) u s =
      (if e.userId = u ∧ e.symbol = s then 1 else 0) + pairCount l u s := by
  by_cases h : e.userId = u ∧ e.symbol = s
  · simp [pairCount, List.filter_cons, h, Nat.add_comm]
  · simp [pairCount, List.filter_cons, h]

theorem pairCount_append (l1 l2 : List WatchlistItem) (u s : String) :
    pairCount (l1 ++ l2) u s = pairCount l1 u s + pairCount l2 u s := by
  simp [pairCount, List.filter_append]

theorem pairCount_singleton (item : WatchlistItem) (u s : String) :
    pairCount [item] u s = if item.userId = u ∧ item.symbol = s then 1 else 0 := by
  rw [pairCount_cons]
  simp [pairCount]

theorem storeDeleteOne_zero {store : List WatchlistItem} {u s : String}
    (h : pairCount store u s = 0) : storeDeleteOne store u s = (store, 0) := by
  induction store with
  | nil => rfl
  | cons e es ih =>
    rw [pairCount_cons] at h
    by_cases hm : e.userId = u ∧ e.symbol = s
    · rw [if_pos hm] at h
      omega
    · rw [if_neg hm] at h
      have h2 := ih (by omega)
      simp [storeDeleteOne, hm, h2]

theorem storeDeleteOne_pos {store : List WatchlistItem} {u s : String}
    (h : 0 < pairCount store u s) :
    (storeDeleteOne store u s).2 = 1 ∧
    pairCount (storeDeleteOne store u s).1 u s = pairCount store u s - 1 := by
  induction store with
  | nil => simp [pairCount] at h
  | cons e es ih =>
    by_cases hm : e.userId = u ∧ e.symbol = s
    · constructor
      · simp [storeDeleteOne, hm]
      · simp [storeDeleteOne, hm, pairCount_cons]
    · rw [pairCount_cons, if_neg hm] at h
      obtain ⟨ih1, ih2⟩ := ih (by omega)
      constructor
      · simp [storeDeleteOne, hm, ih1]
      · have hstep : storeDeleteOne (e :: es) u s
            = (e :: (storeDeleteOne es u s).1, (storeDeleteOne es u s).2) := by
          simp [storeDeleteOne, hm]
        rw [pairCount_cons, if_neg hm, hstep]
        rw [pairCount_cons, if_neg hm, ih2]
        omega

theorem pairCount_pos_iff {store : List WatchlistItem} {u s : String} :
    0 < pairCount store u s ↔
      store.any (fun e => e.userId = u ∧ e.symbol = s) = true := by
  induction store with
  | nil => simp [pairCount]
  | cons e es ih =>
    rw [pairCount_cons, List.any_cons]
    by_cases hm : e.userId = u ∧ e.symbol = s
    · simp [hm]
    · simp [hm, ih]

theorem storeCreate_dup {store : List WatchlistItem} {item : WatchlistItem}
    (h : 0 < pairCount store item.userId item.symbol) :
    storeCreate store item = Except.error 11000 := by
  rw [storeCreate, if_pos (pairCount_pos_iff.mp h)]

theorem storeCreate_new {store : List WatchlistItem} {item : WatchlistItem}
    (h : pairCount store item.userId item.symbol = 0) :
    storeCreate store item = Except.ok (store ++ [item]) := by
  rw [storeCreate, if_neg]
  intro hany
  have hpos := pairCount_pos_iff.mpr hany
  omega

theorem addToWatchlist_dup {store : List WatchlistItem} {u s c : String} {now : Int}
    (hu : u ≠ "") (hs : s ≠ "") (hc : c ≠ "")
    (hpos : 0 < pairCount store u (jsToUpper s)) :
    addToWatchlist (Except.ok ()) store u s c now
      = (store, ⟨ false, "Stock already in watchlist"⟩) := by
  have hcreate : storeCreate store ⟨u, jsToUpper s, c, now⟩ = Except.error 11000 :=
    storeCreate_dup hpos
  simp only [addToWatchlist, hcreate]
  rw [if_neg (by simp [hu, hs, hc])]
  simp

theorem addToWatchlist_new {store : List WatchlistItem} {u s c : String} {now : Int}
    (hval : ¬(u = "" ∨ s = "" ∨ c = ""))
    (h0 : pairCount store u (jsToUpper s) = 0) :
    addToWatchlist (Except.ok ()) store u s c now
      = (store ++ [⟨u, jsToUpper s, c, now⟩], ⟨ true, "Added to watchlist"⟩) := by
  have hcreate : storeCreate store ⟨u, jsToUpper s, c, now⟩
      = Except.ok (store ++ [⟨u, jsToUpper s, c, now⟩]) :=
    storeCreate_new h0
  simp only [addToWatchlist, hcreate]
  rw [if_neg hval]

/-- C5: a second Add of a pair already present fails with the distinct
already-exists outcome (mapped from the uniqueness-violation error
code) leaving the store unchanged, under the uniqueness invariant the pair
has exactly one entry afterwards, and Add preserves at-most-one-entry-per-
pair across every path. -/
theorem c5_duplicate_add_rejected :
    (∀ (store : List WatchlistItem) (u s c : String) (now : Int),
      u ≠ "" → s ≠ "" → c ≠ "" → 0 < pairCount store u (jsToUpper s) →
      addToWatchlist (Except.ok ()) store u s c now
        = (store, ⟨ false, "Stock already in watchlist"⟩) ∧
      (pairCount store u (jsToUpper s) ≤ 1 → pairCount store u (jsToUpper s) = 1)) ∧
    (∀ (conn : Except String Unit) (store : List WatchlistItem) (u s c : String) (now : Int),
      (∀ u2 s2, pairCount store u2 s2 ≤ 1) →
      ∀ u2 s2, pairCount (addToWatchlist conn store u s c now).1 u2 s2 ≤ 1) := by
  constructor
  · intro store u s c now hu hs hc hpos
    exact ⟨addToWatchlist_dup hu hs hc hpos, fun h => by omega⟩
  · intro conn store u s c now hinv u2 s2
    by_cases hval : u = "" ∨ s = "" ∨ c = ""
    · have hstep : addToWatchlist conn store u s c now
          = (store, ⟨ false, "Missing required fields"⟩) := by
        simp only [addToWatchlist]
        rw [if_pos hval]
      rw [hstep]
      exact hinv u2 s2
    · rcases conn with e | u0
      · have hstep : addToWatchlist (Except.error e) store u s c now
            = (store, ⟨ false, "Failed to add to watchlist"⟩) := by
          simp only [addToWatchlist]
          rw [if_neg hval]
        rw [hstep]
        exact hinv u2 s2
      · by_cases h0 : pairCount store u (jsToUpper s) = 0
        · have hstep := @addToWatchlist_new store u s c now hval h0
          rw [hstep]
          show pairCount (store ++ [⟨u, jsToUpper s, c, now⟩]) u2 s2 ≤ 1
          rw [pairCount_append, pairCount_singleton]
          by_cases hm : (⟨u, jsToUpper s, c, now⟩ : WatchlistItem).userId = u2 ∧
              (⟨u, jsToUpper s, c, now⟩ : WatchlistItem).symbol = s2
          · rw [if_pos hm]
            rcases hm with ⟨hm1, hm2⟩
            have hz2 : pairCount store u2 s2 = 0 := by
              rw [← hm1, ← hm2]
              exact h0
            omega
          · rw [if_neg hm]
            have hle := hinv u2 s2
            omega
        · have hpos : 0 < pairCount store u (jsToUpper s) := Nat.pos_of_ne_zero h0
          have hcreate : storeCreate store ⟨u, jsToUpper s, c, now⟩ = Except.error 11000 :=
            storeCreate_dup hpos
          have hstep : addToWatchlist (Except.ok u0) store u s c now
              = (store, ⟨ false, "Stock already in watchlist"⟩) := by
            simp only [addToWatchlist, hcreate]
            rw [if_neg hval]
            simp
          rw [hstep]
          exact hinv u2 s2

/-- Witness for C5: adding aapl for a user who already holds AAPL. -/
theorem c5_duplicate_add_rejected_witness :
    addToWatchlist (Except.ok ()) [sampleItemA] ("u1") ("aapl") ("Apple Inc") 5
      = ([sampleItemA], ⟨ false, "Stock already in watchlist"⟩) :=
  (c5_duplicate_add_rejected.1 [sampleItemA] ("u1") ("aapl") ("Apple Inc") 5
    (by decide) (by decide) (by decide) (by decide)).1

/-- C6: removing a pair that is not stored yields the distinct not-found
outcome and leaves the store untouched, and after a successful Remove an
immediately repeated Remove of the same pair yields not-found rather than a
second success. -/
theorem c6_remove_idempotent_negative :
    (∀ (store : List WatchlistItem) (u s : String), u ≠ "" → s ≠ "" →
      pairCount store u (jsToUpper s) = 0 →
      removeFromWatchlist (Except.ok ()) store u s
        = (store, ⟨ false, "Stock not found in watchlist"⟩)) ∧
    (∀ (store : List WatchlistItem) (u s : String), u ≠ "" → s ≠ "" →
      pairCount store u (jsToUpper s) ≤ 1 →
      (removeFromWatchlist (Except.ok ()) store u s).2.success = true →
      removeFromWatchlist (Except.ok ()) (removeFromWatchlist (Except.ok ()) store u s).1 u s
        = ((removeFromWatchlist (Except.ok ()) store u s).1,
           ⟨ false, "Stock not found in watchlist"⟩)) := by
  constructor
  · intro store u s hu hs h0
    simp [removeFromWatchlist, hu, hs, storeDeleteOne_zero h0]
  · intro store u s hu hs hinv hsucc
    by_cases h0 : pairCount store u (jsToUpper s) = 0
    · rw [removeFromWatchlist] at hsucc
      simp [hu, hs, storeDeleteOne_zero h0] at hsucc
    · have hpos : 0 < pairCount store u (jsToUpper s) := Nat.pos_of_ne_zero h0
      obtain ⟨hd2, hd1⟩ := storeDeleteOne_pos hpos
      have hfirst : removeFromWatchlist (Except.ok ()) store u s
          = ((storeDeleteOne store u (jsToUpper s)).1, ⟨ true, "Removed from watchlist"⟩) := by
        simp [removeFromWatchlist, hu, hs, hd2]
      rw [hfirst]
      have hzero : pairCount (storeDeleteOne store u (jsToUpper s)).1 u (jsToUpper s) = 0 := by
        rw [hd1]
        omega
      simp [removeFromWatchlist, hu, hs, storeDeleteOne_zero hzero]

/-- Witness for C6: remove AAPL twice from a one-entry store. -/
theorem c6_remove_idempotent_negative_witness :
    removeFromWatchlist (Except.ok ())
        (removeFromWatchlist (Except.ok ()) [sampleItemA] ("u1") ("AAPL")).1 ("u1") ("AAPL")
      = ((removeFromWatchlist (Except.ok ()) [sampleItemA] ("u1") ("AAPL")).1,
         ⟨ false, "Stock not found in watchlist"⟩) :=
  c6_remove_idempotent_negative.2 [sampleItemA] ("u1") ("AAPL")
    (by decide) (by decide) (by decide) (by decide)

end StockApp
